import Mathlib

set_option maxRecDepth 16000

/-!
Verification development for the meeting-transcript chatbot backend
(`chatbot/engine.py` plus its FastAPI route layer).

The Python engine is shallowly embedded here:
* a LangChain `ConversationBufferMemory` is a `List Msg` (ordered turn log);
* the module-global `session_memory` dict is an insertion-ordered
  association list `List (String × List Msg)`;
* the LangChain `PromptTemplate` f-string formatter is modelled by
  `fmtAux` (Python `str.format` restricted to plain `{name}` fields and
  the `{{` / `}}` escapes; format specs like `{x!r}` / `{x:>8}` are not
  used by the engine and are not modelled);
* Python `str.replace` is modelled by `strReplace` on character lists
  (the engine only calls it with the non-empty pattern `"{transcript}"`,
  so the empty-pattern edge case of Python's `replace` is irrelevant);
* the external LLM collaborator is an oracle record `LLM`: `init` models
  `get_llm()` (which raises when `GOOGLE_API_KEY` is unset) and
  `generate` models the generation call made by
  `ConversationChain.predict`; fallible Python code becomes `Except`.
-/

/-- Role of a recorded turn (LangChain `HumanMessage` / `AIMessage`). -/
inductive Role where
  | user
  | assistant
deriving DecidableEq, Repr

/-- One recorded turn of a session's conversation memory. -/
structure Msg where
  role : Role
  content : String
deriving DecidableEq, Repr

/-- One entry of the externally stored chat history
(`{'sender': ..., 'content': ...}` dicts built by the FastAPI layer). -/
structure HistEntry where
  sender : String
  content : String
deriving DecidableEq, Repr

/-- Python dict membership/lookup on the insertion-ordered registry. -/
def lookupMem : List (String × List Msg) → String → Option (List Msg)
  | [], _ => none
  | (k, v) :: rest, sid => if k = sid then some v else lookupMem rest sid

/-- Python dict assignment `session_memory[sid] = m` (updates in place,
appends at the end when the key is absent, mirroring insertion order). -/
def setMem : List (String × List Msg) → String → List Msg → List (String × List Msg)
  | [], sid, m => [(sid, m)]
  | (k, v) :: rest, sid, m =>
    if k = sid then (k, m) :: rest else (k, v) :: setMem rest sid m

/-- The synthetic user-role bootstrap turn added by
`initialize_session_memory` (engine.py line 72). -/
def bootstrap_user_message : String :=
  "I have uploaded a meeting transcript for analysis. Please help me understand its contents."

/-- The synthetic assistant-role bootstrap turn added by
`initialize_session_memory` (engine.py line 75); embeds `len(transcript)`. -/
def bootstrap_ai_message (transcript : String) : String :=
  "I've received and analyzed your meeting transcript (" ++ toString transcript.length ++
    " characters). I can help you with questions about participants, decisions, summaries, " ++
    "specific conversations, and any other details from the meeting. What would you like to know?"

/-- The bootstrap pair seeded into a fresh session's memory. -/
def bootstrap_pair (transcript : String) : List Msg :=
  [⟨Role.user, bootstrap_user_message⟩, ⟨Role.assistant, bootstrap_ai_message transcript⟩]

/-- `initialize_session_memory` (engine.py lines 63-83): if the session id
is absent from the registry, create a memory seeded with the bootstrap
pair and store it; return the updated registry and the session's memory. -/
def initialize_session_memory (session_memory : List (String × List Msg))
    (session_id transcript : String) : List (String × List Msg) × List Msg :=
  match lookupMem session_memory session_id with
  | none =>
    let memory := bootstrap_pair transcript
    (session_memory ++ [(session_id, memory)], memory)
  | some memory => (session_memory, memory)

/-- `update_memory_with_history` (engine.py lines 85-95): `memory.clear()`
(hence the fold starts from `[]`, discarding the `memory` argument's
contents) followed by appending each history entry, mapping sender
`"user"` to the user role and `"bot"` to the assistant role; entries with
any other sender fall through both branches of the conditional. -/
def update_memory_with_history (memory : List Msg) (chat_history : List HistEntry) : List Msg :=
  chat_history.foldl
    (fun acc entry =>
      if entry.sender = "user" then acc ++ [⟨Role.user, entry.content⟩]
      else if entry.sender = "bot" then acc ++ [⟨Role.assistant, entry.content⟩]
      else acc)
    []

/-- Spec-side characterization of the rebuild: keep exactly the `"user"`-
and `"bot"`-tagged entries, in order, mapped onto the role enum. -/
def histEntryToMsg (e : HistEntry) : Msg :=
  if e.sender = "user" then ⟨Role.user, e.content⟩ else ⟨Role.assistant, e.content⟩

/-- Spec-side projection of an external history onto a turn log. -/
def projectHistory (h : List HistEntry) : List Msg :=
  (h.filter (fun e => e.sender == "user" || e.sender == "bot")).map histEntryToMsg

/-- Rendering of a single memory turn, LangChain `get_buffer_string`
convention (role label, colon, content). -/
def render_msg (m : Msg) : String :=
  (match m.role with
   | Role.user => "Human: "
   | Role.assistant => "AI: ") ++ m.content

/-- Rendering of the ordered turn log into the text inserted into the
prompt's history slot (newline-separated role-labeled lines). -/
def render_history (ms : List Msg) : String :=
  String.intercalate "\n" (ms.map render_msg)

/-- `get_session_info` result (engine.py lines 195-203). The Python
function returns a dict that contains the `message_count` key only in the
session-exists branch, hence the `Option`. -/
structure SessionInfo where
  session_exists : Bool
  message_count : Option Nat
deriving DecidableEq, Repr

/-- `get_session_info` (engine.py lines 195-203): read-only introspection
of the registry. -/
def get_session_info (session_memory : List (String × List Msg)) (session_id : String) :
    SessionInfo :=
  match lookupMem session_memory session_id with
  | some memory => ⟨true, some memory.length⟩
  | none => ⟨false, none⟩

/-- The module-level `prompt_template` text (engine.py lines 29-61),
verbatim, with its three f-string variables. -/
def prompt_template_text : String :=
  "You are an expert meeting analyst AI assistant specialized in analyzing meeting transcripts and providing comprehensive insights.\n\nMEETING TRANSCRIPT:\n{transcript}\n\nCONVERSATION HISTORY:\n{history}\n\nUSER QUERY: {input}\n\nINSTRUCTIONS:\n- Analyze the meeting transcript thoroughly to answer user questions\n- Provide specific, accurate information based on the transcript content\n- When asked about participants, identify all speakers and their roles\n- When asked about decisions, list concrete outcomes and action items\n- When asked about what someone said, provide relevant quotes or paraphrases\n- When asked for summary, provide structured overview of key topics, decisions, and outcomes\n- Always reference specific parts of the transcript when possible\n- If information isn't in the transcript, clearly state that\n- Keep responses informative yet concise\n- Use bullet points for lists when appropriate\n\nRESPONSE GUIDELINES:\n- For \"who participated\": List all speakers/participants mentioned\n- For \"what did [person] say\": Summarize their key contributions\n- For \"decisions made\": List concrete decisions and action items\n- For \"summary\": Provide overview of agenda, key discussions, and outcomes\n- For specific questions: Extract relevant information from transcript\n\nAnswer the user's question based on the meeting transcript provided above."

/-- Template text strictly before the `{transcript}` variable. -/
def partA : String :=
  "You are an expert meeting analyst AI assistant specialized in analyzing meeting transcripts and providing comprehensive insights.\n\nMEETING TRANSCRIPT:\n"

/-- Template text between `{transcript}` and `{history}`. -/
def partB : String :=
  "\n\nCONVERSATION HISTORY:\n"

/-- Template text between `{history}` and `{input}`. -/
def partC : String :=
  "\n\nUSER QUERY: "

/-- Segment 1 of the template text after `{input}`. -/
def partD1 : String :=
  "\n\nINSTRUCTIONS:\n- Analyze the meeting transcript thoroughly to answer user questions\n"

/-- Segment 2 of the template text after `{input}`. -/
def partD2 : String :=
  "- Provide specific, accurate information based on the transcript content\n- When asked about participants, identify all speakers and their roles\n"

/-- Segment 3 of the template text after `{input}`. -/
def partD3 : String :=
  "- When asked about decisions, list concrete outcomes and action items\n- When asked about what someone said, provide relevant quotes or paraphrases\n"

/-- Segment 4 of the template text after `{input}`. -/
def partD4 : String :=
  "- When asked for summary, provide structured overview of key topics, decisions, and outcomes\n- Always reference specific parts of the transcript when possible\n"

/-- Segment 5 of the template text after `{input}`. -/
def partD5 : String :=
  "- If information isn't in the transcript, clearly state that\n- Keep responses informative yet concise\n- Use bullet points for lists when appropriate\n"

/-- Segment 6 of the template text after `{input}`. -/
def partD6 : String :=
  "\nRESPONSE GUIDELINES:\n- For \"who participated\": List all speakers/participants mentioned\n"

/-- Segment 7 of the template text after `{input}`. -/
def partD7 : String :=
  "- For \"what did [person] say\": Summarize their key contributions\n- For \"decisions made\": List concrete decisions and action items\n"

/-- Segment 8 of the template text after `{input}`. -/
def partD8 : String :=
  "- For \"summary\": Provide overview of agenda, key discussions, and outcomes\n- For specific questions: Extract relevant information from transcript\n"

/-- Segment 9 of the template text after `{input}`. -/
def partD9 : String :=
  "\nAnswer the user's question based on the meeting transcript provided above."

/-- Template text strictly after the `{input}` variable. -/
def partD : String :=
  partD1 ++ partD2 ++ partD3 ++ partD4 ++ partD5 ++ partD6 ++ partD7 ++ partD8 ++ partD9

theorem tpl_decomp :
    prompt_template_text = partA ++ "{transcript}" ++ partB ++ "{history}" ++ partC ++
      "{input}" ++ partD := rfl

/-- Python `str.replace(pat, rep)` on character lists: scan left to right,
replace each non-overlapping occurrence of `pat`, never rescan the
inserted replacement. (Only called with the non-empty pattern
`"{transcript}"`; Python's empty-pattern behavior is out of scope.) -/
def strReplace (pat rep : List Char) : List Char → List Char
  | [] => []
  | c :: rest =>
    if h : pat ≠ [] ∧ pat.isPrefixOf (c :: rest) then
      rep ++ strReplace pat rep ((c :: rest).drop pat.length)
    else
      c :: strReplace pat rep rest
termination_by l => l.length
decreasing_by
  · simp only [List.length_drop, List.length_cons]
    have hp : 0 < pat.length := List.length_pos.mpr h.1
    omega
  · simp

/-- Scanner state of the f-string formatter. -/
inductive FmtMode where
  | text
  | afterLBrace
  | afterRBrace
  | inField (acc : List Char)

/-- Resolution of a replacement-field name against the keyword arguments
`history` and `input` supplied by `ConversationChain.predict`; any other
field name raises (Python `KeyError`). -/
def lookupField (history input : List Char) (name : List Char) : Except String (List Char) :=
  if name = "history".data then Except.ok history
  else if name = "input".data then Except.ok input
  else Except.error ("KeyError: " ++ String.mk name)

/-- Python `str.format` core loop, restricted to plain named fields: text
is copied; `\x7b\x7b` and `\x7d\x7d` are escapes; `\x7bname\x7d` is
replaced by the field's value in a single pass (inserted values are never
rescanned); a stray unmatched brace raises. -/
def fmtAux (history input : List Char) : FmtMode → List Char → Except String (List Char)
  | FmtMode.text, [] => Except.ok []
  | FmtMode.text, c :: rest =>
    if c = '{' then fmtAux history input FmtMode.afterLBrace rest
    else if c = '}' then fmtAux history input FmtMode.afterRBrace rest
    else (fmtAux history input FmtMode.text rest).map (fun t => c :: t)
  | FmtMode.afterLBrace, [] => Except.error "Single opening brace encountered in format string"
  | FmtMode.afterLBrace, c :: rest =>
    if c = '{' then (fmtAux history input FmtMode.text rest).map (fun t => '{' :: t)
    else if c = '}' then
      (lookupField history input []).bind
        (fun v => (fmtAux history input FmtMode.text rest).map (fun t => v ++ t))
    else fmtAux history input (FmtMode.inField [c]) rest
  | FmtMode.afterRBrace, [] => Except.error "Single closing brace encountered in format string"
  | FmtMode.afterRBrace, c :: rest =>
    if c = '}' then (fmtAux history input FmtMode.text rest).map (fun t => '}' :: t)
    else Except.error "Single closing brace encountered in format string"
  | FmtMode.inField _, [] => Except.error "Expected closing brace before end of string"
  | FmtMode.inField acc, c :: rest =>
    if c = '}' then
      (lookupField history input acc).bind
        (fun v => (fmtAux history input FmtMode.text rest).map (fun t => v ++ t))
    else fmtAux history input (FmtMode.inField (acc ++ [c])) rest

/-- The per-request template built by `respond` (engine.py lines 154-158):
the fixed template with the transcript literally substituted via
`str.replace`. -/
def enhanced_template (transcript : String) : List Char :=
  strReplace "{transcript}".data transcript.data prompt_template_text.data

/-- Prompt assembly as performed inside `respond` /
`ConversationChain.predict`: splice the transcript into the template, then
f-string-format the result with the rendered history and the user query. -/
def assemble_prompt (transcript history input : String) : Except String String :=
  (fmtAux history.data input.data FmtMode.text (enhanced_template transcript)).map String.mk

/-- Substring occurrence test on character lists (Python's `in` operator
for strings, and the helper behind the no-occurrence side conditions). -/
def occursIn (pat : List Char) : List Char → Bool
  | [] => pat.isEmpty
  | c :: rest => pat.isPrefixOf (c :: rest) || occursIn pat rest

/-- Python `str.lower()` (the engine only lowercases ASCII query text),
as a character-wise map. -/
def pyLower (s : String) : String := String.mk (s.data.map Char.toLower)

/-- Python `pat in s` for strings. -/
def containsStr (s pat : String) : Bool := occursIn pat.data s.data

/-- Fixed reply when no transcript is configured (engine.py line 139). -/
def upload_prompt_message : String :=
  "Please upload a meeting transcript first so I can help you analyze it."

/-- Degraded-mode reply for summary-intent queries (engine.py line 182). -/
def summary_fallback_message : String :=
  "I can see you're asking for a summary. Please ensure your Google API key is properly configured, and try again."

/-- Degraded-mode reply for participants-intent queries (engine.py line 184). -/
def participants_fallback_message : String :=
  "I can see you're asking about participants. Please ensure your Google API key is properly configured, and try again."

/-- Degraded-mode reply for decisions-intent queries (engine.py line 186). -/
def decisions_fallback_message : String :=
  "I can see you're asking about decisions. Please ensure your Google API key is properly configured, and try again."

/-- Generic degraded-mode reply embedding `str(e)` (engine.py line 178). -/
def generic_error_message (err : String) : String :=
  "I apologize, but I encountered an error while processing your request: " ++ err

/-- The `except` handler of `respond` (engine.py lines 176-188): keyword
families checked in order against the lowercased query, falling through
to the generic message that embeds the failure description. -/
def fallback_response (user_message err : String) : String :=
  if containsStr (pyLower user_message) "summary" || containsStr (pyLower user_message) "summarize" then
    summary_fallback_message
  else if containsStr (pyLower user_message) "participants" || containsStr (pyLower user_message) "who" then
    participants_fallback_message
  else if containsStr (pyLower user_message) "decision" || containsStr (pyLower user_message) "decide" then
    decisions_fallback_message
  else
    generic_error_message err

/-- External LLM collaborator, as an oracle: `init` models `get_llm()`
(raises e.g. when `GOOGLE_API_KEY` is unset), `generate` models the
generation call on the assembled prompt inside `ConversationChain.predict`. -/
structure LLM where
  init : Except String Unit
  generate : String → Except String String

/-- The `session_data` dict handed to `respond`; each field is optional
because the Python code reads it with `session_data.get(key, default)`. -/
structure SessionData where
  transcript : Option String
  chat_history : Option (List HistEntry)
  session_id : Option String

/-- `respond` (engine.py lines 117-188). State (the module-global
`session_memory` registry) is passed and returned explicitly; in-place
mutation of a memory object held by the registry is reflected by writing
the new value back with `setMem`. `ConversationChain.predict` is unfolded
into its observable steps: format the prompt from the memory's rendered
history and the query, call the LLM, and on success `save_context`
appends the (user query, answer) pair to the memory. Every failure path
lands in `fallback_response`, mirroring the `try/except`; mutations made
before the failure persist, as they do in Python. -/
def respond (llm : LLM) (user_message : String) (session_data : SessionData)
    (session_memory : List (String × List Msg)) : String × List (String × List Msg) :=
  let transcript := session_data.transcript.getD ""
  let chat_history := session_data.chat_history.getD []
  let session_id := session_data.session_id.getD ""
  if transcript = "" then
    (upload_prompt_message, session_memory)
  else
    match llm.init with
    | Except.error e => (fallback_response user_message e, session_memory)
    | Except.ok _ =>
      let init := initialize_session_memory session_memory session_id transcript
      let memory1 :=
        if chat_history.isEmpty then init.2
        else update_memory_with_history init.2 chat_history.dropLast
      let reg2 := setMem init.1 session_id memory1
      match assemble_prompt transcript (render_history memory1) user_message with
      | Except.error e => (fallback_response user_message e, reg2)
      | Except.ok prompt =>
        match llm.generate prompt with
        | Except.error e => (fallback_response user_message e, reg2)
        | Except.ok answer =>
          let memory2 := memory1 ++ [⟨Role.user, user_message⟩, ⟨Role.assistant, answer⟩]
          (answer, setMem reg2 session_id memory2)

/-- Convenience oracle whose generation echoes the assembled prompt,
used to observe the exact prompt through the public interface. -/
def echoLLM : LLM := ⟨Except.ok (), fun p => Except.ok p⟩

theorem initialize_fresh_session_example :
    (initialize_session_memory [] "s" "T").2 = bootstrap_pair "T" := rfl

theorem update_skips_unknown_sender_example :
    update_memory_with_history (bootstrap_pair "T") [⟨"user", "Hello"⟩, ⟨"x", "y"⟩] =
      [⟨Role.user, "Hello"⟩] := by decide

theorem fmt_substitutes_example :
    fmtAux "H".data "Q".data FmtMode.text "a{history}b{input}".data =
      Except.ok "aHbQ".data := rfl

theorem fmt_unknown_field_example :
    fmtAux "H".data "Q".data FmtMode.text "a{x}".data =
      Except.error ("KeyError: " ++ String.mk "x".data) := rfl

theorem fmt_brace_escape_example :
    fmtAux "H".data "Q".data FmtMode.text "a\x7b\x7bb\x7d\x7dc".data =
      Except.ok "a\x7bb\x7dc".data := rfl

/-! ## Helper lemmas about the memory rebuild -/

theorem update_foldl_eq (h : List HistEntry) :
    ∀ acc : List Msg,
      h.foldl (fun acc entry =>
        if entry.sender = "user" then acc ++ [⟨Role.user, entry.content⟩]
        else if entry.sender = "bot" then acc ++ [⟨Role.assistant, entry.content⟩]
        else acc) acc = acc ++ projectHistory h := by
  induction h with
  | nil => intro acc; simp [projectHistory]
  | cons e t ih =>
    intro acc
    simp only [List.foldl_cons]
    by_cases hu : e.sender = "user"
    · rw [if_pos hu, ih]
      simp [projectHistory, histEntryToMsg, hu]
    · by_cases hb : e.sender = "bot"
      · rw [if_neg hu, if_pos hb, ih]
        simp [projectHistory, histEntryToMsg, hb, hu]
      · rw [if_neg hu, if_neg hb, ih]
        simp [projectHistory, hb, hu]

theorem update_eq_project (memory : List Msg) (h : List HistEntry) :
    update_memory_with_history memory h = projectHistory h := by
  simpa [update_memory_with_history] using update_foldl_eq h []

/-! ## Helper lemmas about the f-string formatter -/

theorem fmt_ok_nil (history input : List Char) :
    fmtAux history input FmtMode.text [] = Except.ok [] := rfl

theorem fmt_ok_lit (history input : List Char) (x : List Char)
    (hx : ∀ c ∈ x, c ≠ '{' ∧ c ≠ '}') (s2 r : List Char)
    (hr : fmtAux history input FmtMode.text s2 = Except.ok r) :
    fmtAux history input FmtMode.text (x ++ s2) = Except.ok (x ++ r) := by
  induction x with
  | nil => simpa using hr
  | cons c x' ih =>
    have hc := hx c (by simp)
    have ih' := ih (fun d hd => hx d (by simp [hd]))
    simp only [List.cons_append]
    rw [show fmtAux history input FmtMode.text (c :: (x' ++ s2)) =
      (if c = '{' then fmtAux history input FmtMode.afterLBrace (x' ++ s2)
       else if c = '}' then fmtAux history input FmtMode.afterRBrace (x' ++ s2)
       else (fmtAux history input FmtMode.text (x' ++ s2)).map (fun t => c :: t)) from rfl]
    rw [if_neg hc.1, if_neg hc.2, ih']
    rfl

theorem fmt_ok_closed (history input x : List Char)
    (hx : ∀ c ∈ x, c ≠ '{' ∧ c ≠ '}') :
    fmtAux history input FmtMode.text x = Except.ok x := by
  simpa using fmt_ok_lit history input x hx [] [] rfl

theorem fmt_ok_hist (history input : List Char) (rest r : List Char)
    (hr : fmtAux history input FmtMode.text rest = Except.ok r) :
    fmtAux history input FmtMode.text ("{history}".data ++ rest) =
      Except.ok (history ++ r) := by
  show (fmtAux history input FmtMode.text rest).map (fun t => history ++ t) = _
  rw [hr]
  rfl

theorem fmt_ok_inp (history input : List Char) (rest r : List Char)
    (hr : fmtAux history input FmtMode.text rest = Except.ok r) :
    fmtAux history input FmtMode.text ("{input}".data ++ rest) =
      Except.ok (input ++ r) := by
  show (fmtAux history input FmtMode.text rest).map (fun t => input ++ t) = _
  rw [hr]
  rfl

/-! ## Helper lemmas about literal replacement -/

theorem isPrefixOf_self_append (l t : List Char) : l.isPrefixOf (l ++ t) = true := by
  induction l with
  | nil => simp [List.isPrefixOf]
  | cons c l' ih => simp [List.isPrefixOf, ih]

theorem strReplace_nil (pat rep : List Char) : strReplace pat rep [] = [] := by
  rw [strReplace.eq_def]

theorem strReplace_cons (pat rep : List Char) (c : Char) (rest : List Char) :
    strReplace pat rep (c :: rest) =
      if _h : pat ≠ [] ∧ pat.isPrefixOf (c :: rest) then
        rep ++ strReplace pat rep ((c :: rest).drop pat.length)
      else c :: strReplace pat rep rest := by
  rw [strReplace.eq_def]

theorem strReplace_cons_miss (pat rep : List Char) (c : Char) (rest : List Char)
    (h : pat.isPrefixOf (c :: rest) = false) :
    strReplace pat rep (c :: rest) = c :: strReplace pat rep rest := by
  rw [strReplace_cons, dif_neg]
  rintro ⟨-, hp⟩
  rw [h] at hp
  exact absurd hp (by simp)

theorem strReplace_step (pat rep tail : List Char) (hpat : pat ≠ []) :
    strReplace pat rep (pat ++ tail) = rep ++ strReplace pat rep tail := by
  cases pat with
  | nil => exact absurd rfl hpat
  | cons p pt =>
    simp only [List.cons_append]
    rw [strReplace_cons, dif_pos ⟨hpat, by
      rw [show p :: (pt ++ tail) = (p :: pt) ++ tail from rfl]
      exact isPrefixOf_self_append (p :: pt) tail⟩]
    rw [show p :: (pt ++ tail) = (p :: pt) ++ tail from rfl, List.drop_left]

theorem strReplace_skip (pat rep : List Char) (p : Char) (pt : List Char)
    (hpat : pat = p :: pt) :
    ∀ (A s : List Char), (∀ c ∈ A, c ≠ p) →
      strReplace pat rep (A ++ s) = A ++ strReplace pat rep s := by
  intro A
  induction A with
  | nil => intro s _; rfl
  | cons a A' ih =>
    intro s hA
    have ha : a ≠ p := hA a (by simp)
    simp only [List.cons_append]
    rw [strReplace_cons, dif_neg (by
      rintro ⟨-, hp⟩
      rw [hpat] at hp
      simp only [List.isPrefixOf, Bool.and_eq_true, beq_iff_eq] at hp
      exact ha hp.1.symm)]
    rw [ih s (fun c hc => hA c (by simp [hc]))]

/-- Identity of `strReplace` on text avoiding the pattern's head char. -/
theorem strReplace_id (pat rep : List Char) (p : Char) (pt : List Char)
    (hpat : pat = p :: pt) (s : List Char) (hs : ∀ c ∈ s, c ≠ p) :
    strReplace pat rep s = s := by
  simpa [strReplace_nil] using strReplace_skip pat rep p pt hpat s [] hs

/-! ## The template decomposition facts -/

/-- The template text that follows the `{transcript}` variable. -/
def tailTpl : String := partB ++ "{history}" ++ partC ++ "{input}" ++ partD

theorem partA_chars : ∀ c ∈ partA.data, c ≠ '{' ∧ c ≠ '}' := by decide

theorem partB_chars : ∀ c ∈ partB.data, c ≠ '{' ∧ c ≠ '}' := by decide

theorem partC_chars : ∀ c ∈ partC.data, c ≠ '{' ∧ c ≠ '}' := by decide

theorem partD_chars : ∀ c ∈ partD.data, c ≠ '{' ∧ c ≠ '}' := by
  intro c hc
  simp only [partD, String.data_append, List.mem_append] at hc
  rcases hc with (((((((hc | hc) | hc) | hc) | hc) | hc) | hc) | hc) | hc <;>
    revert c <;> decide

theorem strReplace_tailTpl (rep : List Char) :
    strReplace "{transcript}".data rep tailTpl.data = tailTpl.data := by
  have hpat : "{transcript}".data = '{' :: "transcript\x7d".data := rfl
  have htr : "transcript\x7d".data = 't' :: "ranscript\x7d".data := rfl
  have hth : ("transcript\x7d".data).isPrefixOf ("history\x7d".data ++
      (partC.data ++ ('{' :: ("input\x7d".data ++ partD.data)))) = false := by
    rw [show "history\x7d".data ++ (partC.data ++ ('{' :: ("input\x7d".data ++ partD.data))) =
      'h' :: ("istory\x7d".data ++ (partC.data ++ ('{' :: ("input\x7d".data ++ partD.data))))
      from rfl]
    rw [htr]
    simp [List.isPrefixOf, show ('t' == 'h') = false from rfl]
  have hti : ("transcript\x7d".data).isPrefixOf ("input\x7d".data ++ partD.data) = false := by
    rw [show "input\x7d".data ++ partD.data = 'i' :: ("nput\x7d".data ++ partD.data) from rfl]
    rw [htr]
    simp [List.isPrefixOf, show ('t' == 'i') = false from rfl]
  have h1 : strReplace "{transcript}".data rep partD.data = partD.data :=
    strReplace_id _ rep '{' "transcript\x7d".data rfl partD.data
      (fun c hc => (partD_chars c hc).1)
  have h2 : strReplace "{transcript}".data rep ("input\x7d".data ++ partD.data) =
      "input\x7d".data ++ partD.data := by
    rw [strReplace_skip "{transcript}".data rep '{' "transcript\x7d".data rfl
      "input\x7d".data partD.data (by decide), h1]
  have h3 : strReplace "{transcript}".data rep
      ('{' :: ("input\x7d".data ++ partD.data)) = '{' :: ("input\x7d".data ++ partD.data) := by
    rw [strReplace_cons_miss _ _ _ _ (by
      rw [hpat]
      simp [List.isPrefixOf, hti]), h2]
  have h4 : strReplace "{transcript}".data rep
      (partC.data ++ ('{' :: ("input\x7d".data ++ partD.data))) =
      partC.data ++ ('{' :: ("input\x7d".data ++ partD.data)) := by
    rw [strReplace_skip "{transcript}".data rep '{' "transcript\x7d".data rfl
      partC.data _ (fun c hc => (partC_chars c hc).1), h3]
  have h5 : strReplace "{transcript}".data rep
      ("history\x7d".data ++ (partC.data ++ ('{' :: ("input\x7d".data ++ partD.data)))) =
      "history\x7d".data ++ (partC.data ++ ('{' :: ("input\x7d".data ++ partD.data))) := by
    rw [strReplace_skip "{transcript}".data rep '{' "transcript\x7d".data rfl
      "history\x7d".data _ (by decide), h4]
  have h6 : strReplace "{transcript}".data rep
      ('{' :: ("history\x7d".data ++ (partC.data ++ ('{' :: ("input\x7d".data ++ partD.data))))) =
      '{' :: ("history\x7d".data ++ (partC.data ++ ('{' :: ("input\x7d".data ++ partD.data)))) := by
    rw [strReplace_cons_miss _ _ _ _ (by
      rw [hpat]
      simp [List.isPrefixOf, hth]), h5]
  have h7 : strReplace "{transcript}".data rep
      (partB.data ++ ('{' :: ("history\x7d".data ++ (partC.data ++
        ('{' :: ("input\x7d".data ++ partD.data)))))) =
      partB.data ++ ('{' :: ("history\x7d".data ++ (partC.data ++
        ('{' :: ("input\x7d".data ++ partD.data))))) := by
    rw [strReplace_skip "{transcript}".data rep '{' "transcript\x7d".data rfl
      partB.data _ (fun c hc => (partB_chars c hc).1), h6]
  have hsplit : tailTpl.data = partB.data ++ ('{' :: ("history\x7d".data ++ (partC.data ++
      ('{' :: ("input\x7d".data ++ partD.data))))) := by
    simp only [tailTpl, String.data_append, List.append_assoc,
      show "{history}".data = '{' :: "history\x7d".data from rfl,
      show "{input}".data = '{' :: "input\x7d".data from rfl, List.cons_append]
  rw [hsplit, h7]

theorem replace_transcript (rep : List Char) :
    strReplace "{transcript}".data rep prompt_template_text.data =
      partA.data ++ rep ++ tailTpl.data := by
  have hdec : prompt_template_text.data =
      partA.data ++ ("{transcript}".data ++ tailTpl.data) := by
    rw [tpl_decomp]
    simp [String.data_append, tailTpl, List.append_assoc]
  rw [hdec]
  rw [strReplace_skip "{transcript}".data rep '{' "transcript\x7d".data rfl partA.data _
    (fun c hc => (partA_chars c hc).1)]
  rw [strReplace_step _ _ _ (by decide)]
  rw [strReplace_tailTpl]
  simp [List.append_assoc]

theorem fmt_template (t history input : List Char)
    (ht : ∀ c ∈ t, c ≠ '{' ∧ c ≠ '}') :
    fmtAux history input FmtMode.text (partA.data ++ t ++ tailTpl.data) =
      Except.ok (partA.data ++ t ++ partB.data ++ history ++ partC.data ++ input ++
        partD.data) := by
  have e4 : fmtAux history input FmtMode.text partD.data = Except.ok partD.data :=
    fmt_ok_closed history input partD.data partD_chars
  have e3 := fmt_ok_inp history input _ _ e4
  have e2 := fmt_ok_lit history input partC.data partC_chars _ _ e3
  have e1 := fmt_ok_hist history input _ _ e2
  have hx : ∀ c ∈ partA.data ++ t ++ partB.data, c ≠ '{' ∧ c ≠ '}' := by
    intro c hc
    simp only [List.mem_append] at hc
    rcases hc with (hc | hc) | hc
    · exact partA_chars c hc
    · exact ht c hc
    · exact partB_chars c hc
  have e0 := fmt_ok_lit history input (partA.data ++ t ++ partB.data) hx _ _ e1
  rw [show tailTpl.data = partB.data ++ ("{history}".data ++ (partC.data ++
    ("{input}".data ++ partD.data))) from rfl]
  simp only [List.append_assoc] at e0 ⊢
  exact e0

/-- Master lemma: for a transcript free of brace characters, the assembled
prompt is the template's four literal segments with the transcript, the
rendered history, and the query spliced in verbatim. -/
theorem assemble_ok (t history input : String)
    (ht : ∀ c ∈ t.data, c ≠ '{' ∧ c ≠ '}') :
    assemble_prompt t history input =
      Except.ok (partA ++ t ++ partB ++ history ++ partC ++ input ++ partD) := by
  unfold assemble_prompt enhanced_template
  rw [replace_transcript t.data, fmt_template t.data history.data input.data ht]
  show Except.ok (String.mk (partA.data ++ t.data ++ partB.data ++ history.data ++
    partC.data ++ input.data ++ partD.data)) = _
  congr 1

/-! ## Claim theorems -/

/-- C7: when rebuilding memory from an external turn list, every entry
whose sender tag is neither "user" nor "bot" is silently skipped: the
result is exactly the user- and bot-tagged entries in original order,
with "user" mapped to the user role and "bot" to the assistant role. -/
theorem rebuild_skips_unknown_senders (memory : List Msg) (h : List HistEntry) :
    update_memory_with_history memory h =
      (h.filter (fun e => e.sender == "user" || e.sender == "bot")).map histEntryToMsg :=
  update_eq_project memory h

/-- C8: rebuilding memory from a history and rendering is idempotent —
a second `update_memory_with_history` with the same input yields the same
rendered turn-log text. -/
theorem rebuild_render_idempotent (memory : List Msg) (h : List HistEntry) :
    render_history (update_memory_with_history (update_memory_with_history memory h) h) =
      render_history (update_memory_with_history memory h) := by
  rw [update_eq_project, update_eq_project]

/-- C1 (amended): the bootstrap pair is seeded as the exact initial
contents of a fresh session's memory, but a rebuild from external chat
history clears the memory and replaces it with the projection of that
history alone, so the bootstrap pair survives a rebuild only if the
history itself projects onto it. -/
theorem bootstrap_seeding_and_rebuild :
    (∀ (reg : List (String × List Msg)) (sid t : String),
      lookupMem reg sid = none → (initialize_session_memory reg sid t).2 = bootstrap_pair t) ∧
    (∀ (memory : List Msg) (h : List HistEntry),
      update_memory_with_history memory h = projectHistory h) :=
  ⟨fun reg sid t hl => by simp [initialize_session_memory, hl],
   fun memory h => update_eq_project memory h⟩

/-- Witness for the C1 amended theorem at concrete inputs. -/
theorem bootstrap_seeding_and_rebuild_witness :
    (initialize_session_memory [] "s" "T").2 = bootstrap_pair "T" ∧
    update_memory_with_history (bootstrap_pair "T") [⟨"user", "Hi"⟩] =
      projectHistory [⟨"user", "Hi"⟩] :=
  ⟨bootstrap_seeding_and_rebuild.1 [] "s" "T" rfl,
   bootstrap_seeding_and_rebuild.2 (bootstrap_pair "T") [⟨"user", "Hi"⟩]⟩

/-- C1 counterexample: after a rebuild from an external history, the
bootstrap pair is no longer the first two turns of the session's memory
(here the rebuilt memory is the single external turn). -/
theorem rebuild_drops_bootstrap_pair :
    (update_memory_with_history (bootstrap_pair "T") [⟨"user", "Hello"⟩]).take 2 ≠
      bootstrap_pair "T" := by decide

/-- C6: `initialize_session_memory` is idempotent with respect to
seeding — for a session id already present, a second call (even with a
different transcript) returns the registry unchanged together with the
pre-existing memory, and does not create or re-seed anything. -/
theorem initialize_session_memory_idempotent
    (reg : List (String × List Msg)) (sid : String) (m : List Msg) (t2 : String)
    (hl : lookupMem reg sid = some m) :
    initialize_session_memory reg sid t2 = (reg, m) := by
  simp [initialize_session_memory, hl]

/-- Witness for C6 at concrete inputs: a registry seeded for "s" with one
transcript is untouched by a second call with a different transcript. -/
theorem initialize_session_memory_idempotent_witness :
    lookupMem [("s", bootstrap_pair "T")] "s" = some (bootstrap_pair "T") ∧
    initialize_session_memory [("s", bootstrap_pair "T")] "s" "OTHER" =
      ([("s", bootstrap_pair "T")], bootstrap_pair "T") :=
  ⟨rfl, initialize_session_memory_idempotent [("s", bootstrap_pair "T")] "s"
    (bootstrap_pair "T") "OTHER" rfl⟩

/-- C9 (amended): `get_session_info` is a pure read of the registry (it
takes the registry and returns only a `SessionInfo`, never a modified
registry); its existence flag mirrors registry membership, and the turn
count is included exactly when the session exists, equal to the memory's
message count — it is absent for unknown sessions. -/
theorem session_info_shape (reg : List (String × List Msg)) (sid : String) :
    ((get_session_info reg sid).session_exists = (lookupMem reg sid).isSome) ∧
    (∀ m, lookupMem reg sid = some m →
      get_session_info reg sid = ⟨true, some m.length⟩) ∧
    (lookupMem reg sid = none → get_session_info reg sid = ⟨false, none⟩) := by
  refine ⟨?_, ?_, ?_⟩
  · cases hl : lookupMem reg sid <;> simp [get_session_info, hl]
  · intro m hl; simp [get_session_info, hl]
  · intro hl; simp [get_session_info, hl]

/-- Witness for the C9 amended theorem, at a present and an absent id. -/
theorem session_info_shape_witness :
    get_session_info [("s", bootstrap_pair "T")] "s" =
      ⟨true, some (bootstrap_pair "T").length⟩ ∧
    get_session_info [("s", bootstrap_pair "T")] "absent" = ⟨false, none⟩ :=
  ⟨(session_info_shape [("s", bootstrap_pair "T")] "s").2.1 (bootstrap_pair "T") rfl,
   (session_info_shape [("s", bootstrap_pair "T")] "absent").2.2 rfl⟩

/-- C9 counterexample: for an absent session the returned record carries
no turn count at all (the Python dict lacks the `message_count` key), so
the turn-count field is not present "whether or not the session exists". -/
theorem session_info_missing_turn_count :
    (get_session_info [] "abc").message_count = none := rfl

/-- C5: with an empty or absent transcript, `respond` immediately returns
the fixed prompt-to-upload message for every query, every LLM oracle, and
every registry, and the registry is returned untouched (no memory
operation, no LLM interaction). -/
theorem respond_no_transcript (llm : LLM) (msg : String) (sd : SessionData)
    (reg : List (String × List Msg))
    (h : sd.transcript = none ∨ sd.transcript = some "") :
    respond llm msg sd reg = (upload_prompt_message, reg) := by
  rcases h with h | h <;> simp [respond, h]

/-- Witness for C5: both the absent-key and the empty-string transcript
shapes, at concrete inputs. -/
theorem respond_no_transcript_witness :
    respond echoLLM "hello" ⟨none, none, none⟩ [] = (upload_prompt_message, []) ∧
    respond echoLLM "hello" ⟨some "", some [⟨"user", "x"⟩], some "s"⟩ [] =
      (upload_prompt_message, []) :=
  ⟨respond_no_transcript echoLLM "hello" ⟨none, none, none⟩ [] (Or.inl rfl),
   respond_no_transcript echoLLM "hello" ⟨some "", some [⟨"user", "x"⟩], some "s"⟩ []
     (Or.inr rfl)⟩
/-- C10: `respond` is total at the public interface — whatever the
session-data key shapes and the LLM oracle's behavior (including a
failing `get_llm`, i.e. a missing API key), its text result is always one
of: the fixed upload prompt, a fallback text produced by the exception
handler, or a successful LLM answer; no error value escapes. -/
theorem respond_always_returns_text (llm : LLM) (msg : String) (sd : SessionData)
    (reg : List (String × List Msg)) :
    (respond llm msg sd reg).1 = upload_prompt_message ∨
    (∃ e, (respond llm msg sd reg).1 = fallback_response msg e) ∨
    (∃ p r, llm.generate p = Except.ok r ∧ (respond llm msg sd reg).1 = r) := by
  simp only [respond]
  split
  · exact Or.inl rfl
  · split
    · exact Or.inr (Or.inl ⟨_, rfl⟩)
    · split
      · exact Or.inr (Or.inl ⟨_, rfl⟩)
      · split
        · exact Or.inr (Or.inl ⟨_, rfl⟩)
        · next answer heq => exact Or.inr (Or.inr ⟨_, answer, heq, rfl⟩)
theorem respond_unfold_ok (g : String → Except String String) (msg t sid : String)
    (ch : List HistEntry) (reg : List (String × List Msg)) (htne : t ≠ "") :
    respond ⟨Except.ok (), g⟩ msg ⟨some t, some ch, some sid⟩ reg =
      (let init := initialize_session_memory reg sid t
       let memory1 :=
         if ch.isEmpty then init.2
         else update_memory_with_history init.2 ch.dropLast
       let reg2 := setMem init.1 sid memory1
       match assemble_prompt t (render_history memory1) msg with
       | Except.error e => (fallback_response msg e, reg2)
       | Except.ok prompt =>
         match g prompt with
         | Except.error e => (fallback_response msg e, reg2)
         | Except.ok answer =>
           (answer, setMem reg2 sid
             (memory1 ++ [⟨Role.user, msg⟩, ⟨Role.assistant, answer⟩]))) := by
  simp only [respond, Option.getD_some]
  rw [if_neg htne]
/-- C4: when the LLM call fails, `respond` returns (never raises) a text
chosen by keyword families checked against the lowercased query in the
source's fixed order — summary/summarize first, then participants/who,
then decision/decide — falling through to a generic apologetic message
that embeds the failure description. -/
theorem respond_degraded_keyword_fallback :
    (∀ (g : String → Except String String) (e msg t sid : String)
       (ch : List HistEntry) (reg : List (String × List Msg)),
       (∀ c ∈ t.data, c ≠ '{' ∧ c ≠ '}') → t ≠ "" →
       (∀ p, g p = Except.error e) →
       (respond ⟨Except.ok (), g⟩ msg ⟨some t, some ch, some sid⟩ reg).1 =
         fallback_response msg e) ∧
    (∀ msg e,
       (containsStr (pyLower msg) "summary" || containsStr (pyLower msg) "summarize") = true →
       fallback_response msg e = summary_fallback_message) ∧
    (∀ msg e,
       (containsStr (pyLower msg) "summary" || containsStr (pyLower msg) "summarize") = false →
       (containsStr (pyLower msg) "participants" || containsStr (pyLower msg) "who") = true →
       fallback_response msg e = participants_fallback_message) ∧
    (∀ msg e,
       (containsStr (pyLower msg) "summary" || containsStr (pyLower msg) "summarize") = false →
       (containsStr (pyLower msg) "participants" || containsStr (pyLower msg) "who") = false →
       (containsStr (pyLower msg) "decision" || containsStr (pyLower msg) "decide") = true →
       fallback_response msg e = decisions_fallback_message) ∧
    (∀ msg e,
       (containsStr (pyLower msg) "summary" || containsStr (pyLower msg) "summarize") = false →
       (containsStr (pyLower msg) "participants" || containsStr (pyLower msg) "who") = false →
       (containsStr (pyLower msg) "decision" || containsStr (pyLower msg) "decide") = false →
       fallback_response msg e = generic_error_message e) := by
  refine ⟨?_, ?_, ?_, ?_, ?_⟩
  · intro g e msg t sid ch reg ht htne hg
    rw [respond_unfold_ok g msg t sid ch reg htne]
    simp only []
    rw [assemble_ok t _ msg ht]
    simp [hg]
  · intro msg e h1
    simp [fallback_response, h1]
  · intro msg e h1 h2
    simp [fallback_response, h1, h2]
  · intro msg e h1 h2 h3
    simp [fallback_response, h1, h2, h3]
  · intro msg e h1 h2 h3
    simp [fallback_response, h1, h2, h3]

/-- Witness for C4 at concrete inputs: an always-failing generation call
and a participants-family query. -/
theorem respond_degraded_keyword_fallback_witness :
    (respond ⟨Except.ok (), fun _ => Except.error "boom"⟩ "who attended"
        ⟨some "T", some [], some "s"⟩ []).1 = fallback_response "who attended" "boom" ∧
    fallback_response "who attended" "boom" = participants_fallback_message :=
  ⟨respond_degraded_keyword_fallback.1 (fun _ => Except.error "boom") "boom" "who attended"
      "T" "s" [] [] (by decide) (by decide) (fun _ => rfl),
   respond_degraded_keyword_fallback.2.2.1 "who attended" "boom" (by decide) (by decide)⟩
/-- C3: with a non-empty external chat history, `respond` rebuilds memory
from that history excluding its final entry (the just-added current-turn
user message), so the rendered history handed to prompt assembly is
exactly the projection of the prior turns, and the prompt's input slot is
the current query verbatim — observed here through an LLM oracle that
echoes its prompt. -/
theorem respond_excludes_current_turn
    (memory : List Msg) (ch' : List HistEntry) (cur : HistEntry)
    (t msg sid : String) (reg : List (String × List Msg))
    (ht : ∀ c ∈ t.data, c ≠ '{' ∧ c ≠ '}') (htne : t ≠ "") :
    update_memory_with_history memory ((ch' ++ [cur]).dropLast) = projectHistory ch' ∧
    (respond echoLLM msg ⟨some t, some (ch' ++ [cur]), some sid⟩ reg).1 =
      partA ++ t ++ partB ++ render_history (projectHistory ch') ++ partC ++ msg ++ partD := by
  have hdrop : (ch' ++ [cur]).dropLast = ch' := by simp
  constructor
  · rw [hdrop, update_eq_project]
  · have hne : (ch' ++ [cur]).isEmpty = false := by cases ch' <;> rfl
    rw [show echoLLM = ⟨Except.ok (), fun p => Except.ok p⟩ from rfl]
    rw [respond_unfold_ok _ msg t sid (ch' ++ [cur]) reg htne]
    simp only [hne, hdrop, update_eq_project]
    rw [assemble_ok t _ msg ht]
    simp

/-- Witness for C3 at the spec's three-turn example history. -/
theorem respond_excludes_current_turn_witness :
    update_memory_with_history []
        ((([⟨"user", "Hello"⟩, ⟨"bot", "Hi"⟩] : List HistEntry) ++
          ([⟨"user", "What decisions were made?"⟩] : List HistEntry)).dropLast) =
      projectHistory [⟨"user", "Hello"⟩, ⟨"bot", "Hi"⟩] ∧
    (respond echoLLM "What decisions were made?"
        ⟨some "T", some (([⟨"user", "Hello"⟩, ⟨"bot", "Hi"⟩] : List HistEntry) ++
          [⟨"user", "What decisions were made?"⟩]), some "s"⟩ []).1 =
      partA ++ "T" ++ partB ++
        render_history (projectHistory [⟨"user", "Hello"⟩, ⟨"bot", "Hi"⟩]) ++ partC ++
        "What decisions were made?" ++ partD :=
  respond_excludes_current_turn []
    ([⟨"user", "Hello"⟩, ⟨"bot", "Hi"⟩] : List HistEntry)
    (⟨"user", "What decisions were made?"⟩ : HistEntry)
    "T" "What decisions were made?" "s" [] (by decide) (by decide)
theorem occursIn_no_head (p : Char) (pt : List Char) :
    ∀ s : List Char, (∀ c ∈ s, c ≠ p) → occursIn (p :: pt) s = false := by
  intro s
  induction s with
  | nil => intro _; rfl
  | cons c rest ih =>
    intro hs
    have hc : c ≠ p := hs c (by simp)
    simp only [occursIn, Bool.or_eq_false_iff]
    refine ⟨?_, ih (fun d hd => hs d (by simp [hd]))⟩
    simp [List.isPrefixOf, beq_eq_false_iff_ne, Ne.symm hc]

/-- C2 (amended): the f-string substitution of the rendered history and
the user query is a single literal pass — whatever template-variable-like
substrings they contain, they are spliced into the prompt verbatim and
never re-interpreted; this holds for every transcript free of brace
characters (brace-bearing transcripts are the corrected part of the
claim: they are re-interpreted, see the counterexample). -/
theorem prompt_substitution_single_pass (t history input : String)
    (ht : ∀ c ∈ t.data, c ≠ '{' ∧ c ≠ '}') :
    assemble_prompt t history input =
      Except.ok (partA ++ t ++ partB ++ history ++ partC ++ input ++ partD) :=
  assemble_ok t history input ht

/-- Witness for the C2 amended theorem: history and input values that
themselves look like template variables land in the prompt verbatim. -/
theorem prompt_substitution_single_pass_witness :
    assemble_prompt "T" "{input}" "{history}" =
      Except.ok (partA ++ "T" ++ partB ++ "{input}" ++ partC ++ "{history}" ++ partD) :=
  prompt_substitution_single_pass "T" "{input}" "{history}" (by decide)

/-- C2 counterexample: a transcript containing the template-variable-like
substring "\x7binput\x7d" is re-interpreted by prompt assembly — the
occurrence inside the transcript is replaced by the user query, and the
assembled prompt does not contain the substring at all, so the transcript
content does not appear verbatim. -/
theorem transcript_reinterpreted_counterexample :
    assemble_prompt "X{input}Y" "H" "Q" =
      Except.ok (partA ++ "X" ++ "Q" ++ "Y" ++ partB ++ "H" ++ partC ++ "Q" ++ partD) ∧
    containsStr (partA ++ "X" ++ "Q" ++ "Y" ++ partB ++ "H" ++ partC ++ "Q" ++ partD)
      "{input}" = false := by
  constructor
  · unfold assemble_prompt enhanced_template
    rw [replace_transcript "X{input}Y".data]
    have e7 : fmtAux "H".data "Q".data FmtMode.text partD.data = Except.ok partD.data :=
      fmt_ok_closed _ _ partD.data partD_chars
    have e6 := fmt_ok_inp "H".data "Q".data _ _ e7
    have e5 := fmt_ok_lit "H".data "Q".data partC.data partC_chars _ _ e6
    have e4 := fmt_ok_hist "H".data "Q".data _ _ e5
    have hyb : ∀ c ∈ "Y".data ++ partB.data, c ≠ '{' ∧ c ≠ '}' := by
      intro c hc
      rcases List.mem_append.mp hc with hc | hc
      · revert c hc; decide
      · exact partB_chars c hc
    have e3 := fmt_ok_lit "H".data "Q".data ("Y".data ++ partB.data) hyb _ _ e4
    have e2 := fmt_ok_inp "H".data "Q".data _ _ e3
    have hax : ∀ c ∈ partA.data ++ "X".data, c ≠ '{' ∧ c ≠ '}' := by
      intro c hc
      rcases List.mem_append.mp hc with hc | hc
      · exact partA_chars c hc
      · revert c hc; decide
    have e1 := fmt_ok_lit "H".data "Q".data (partA.data ++ "X".data) hax _ _ e2
    have hsplit : partA.data ++ "X{input}Y".data ++ tailTpl.data =
        (partA.data ++ "X".data) ++ ("{input}".data ++ (("Y".data ++ partB.data) ++
          ("{history}".data ++ (partC.data ++ ("{input}".data ++ partD.data))))) := by
      simp only [tailTpl, String.data_append, List.append_assoc,
        show "X{input}Y".data = "X".data ++ ("{input}".data ++ "Y".data) from rfl]
      rfl
    rw [hsplit, e1]
    show Except.ok (String.mk ((partA.data ++ "X".data) ++ ("Q".data ++
      (("Y".data ++ partB.data) ++ ("H".data ++ (partC.data ++
        ("Q".data ++ partD.data))))))) = _
    congr 1
  · have hout : ∀ c ∈ (partA ++ "X" ++ "Q" ++ "Y" ++ partB ++ "H" ++ partC ++ "Q" ++
        partD).data, c ≠ '{' := by
      intro c hc
      simp only [String.data_append, List.mem_append, List.append_assoc] at hc
      rcases hc with hc | hc | hc | hc | hc | hc | hc | hc | hc
      · exact (partA_chars c hc).1
      · revert c hc; decide
      · revert c hc; decide
      · revert c hc; decide
      · exact (partB_chars c hc).1
      · revert c hc; decide
      · exact (partC_chars c hc).1
      · revert c hc; decide
      · exact (partD_chars c hc).1
    show occursIn "{input}".data _ = false
    rw [show "{input}".data = '{' :: "input\x7d".data from rfl]
    exact occursIn_no_head '{' "input\x7d".data _ hout
